import Mathlib

/-! Verification of the Powerlift form-analysis pipeline.

The numeric scoring and repetition-detection routines of the backend
(`calculate_overall_score`, `detect_repetitions`,
`calculate_bar_path_efficiency`, `handle_frame`, `safe_process_frame`)
are embedded below, translated from the Python sources in the technical
documentation of the repository; Python floats are idealised as exact
rationals (or reals where square roots and arc-cosines occur).
Components whose code is not part of the sources (the score-based
classifier body, the batch-retraining module) are modelled from the
specification and marked as such in their doc comments.
-/

namespace Powerlift

/-! ## String constants used by the pipeline -/

def deadliftType : String := "deadlift"

def squatType : String := "squat"

def benchType : String := "bench"

def goodLabel : String := "Good"

def needsImprovementLabel : String := "Needs Improvement"

def poorLabel : String := "Poor"

/-! ## Overall score (source: `calculate_overall_score`)

Translated from the backend implementation: each exercise type selects a
fixed weight table, any other exercise type falls back to the default
table of four equal weights, and the weighted sum is clamped to [0,100]
with `max(0, min(100, overall_score))`. -/

structure FormWeights where
  knee : ℚ
  spine : ℚ
  hip : ℚ
  bar_path : ℚ
  deriving Repr, DecidableEq

/-- Weight table chosen by `calculate_overall_score` for a given
exercise type, including the default branch for unknown types. -/
def exerciseWeights (exercise_type : String) : FormWeights :=
  if exercise_type = deadliftType then
    { knee := 2/10, spine := 35/100, hip := 25/100, bar_path := 2/10 }
  else if exercise_type = squatType then
    { knee := 3/10, spine := 25/100, hip := 25/100, bar_path := 2/10 }
  else if exercise_type = benchType then
    { knee := 1/10, spine := 2/10, hip := 2/10, bar_path := 5/10 }
  else
    { knee := 25/100, spine := 25/100, hip := 25/100, bar_path := 25/100 }

/-- Embedding of `calculate_overall_score(knee_score, spine_score,
hip_score, bar_path_score, exercise_type)`. -/
def calculate_overall_score (knee_score spine_score hip_score bar_path_score : ℚ)
    (exercise_type : String) : ℚ :=
  let w := exerciseWeights exercise_type
  let overall_score :=
    knee_score * w.knee + spine_score * w.spine + hip_score * w.hip +
      bar_path_score * w.bar_path
  max 0 (min 100 overall_score)

/-! ## Score-based classifier (modelled from the spec) -/

/-- Modelled from the spec: the body of
`generate_score_based_mcsvm_analysis` is not among the sources; its
documentation fixes the label bands: overall score at least 85 is
classified Good, at least 70 (below 85) Needs Improvement, below 70
Poor. -/
def scoreLabel (overall : ℚ) : String :=
  if 85 ≤ overall then goodLabel
  else if 70 ≤ overall then needsImprovementLabel
  else poorLabel

/-- Modelled from the spec: the confidence of the score-based classifier
is absent from the sources; the documentation fixes per-band confidence
ranges (Good 80 to 95 percent, Needs Improvement 70 to 85 percent, Poor
65 to 80 percent) and the spec requires confidence to grow with the
distance from the nearest band boundary, deterministically (any bounded
jitter is taken at its deterministic centre). -/
def scoreConfidence (overall : ℚ) : ℚ :=
  if 85 ≤ overall then 4/5 + (overall - 85) / 100
  else if 70 ≤ overall then 7/10 + min (overall - 70) (85 - overall) / 100
  else 13/20 + (70 - overall) * 3 / 2000

/-- Modelled from the spec: probability assigned to the Good label by
the score-based classifier, peaked at the chosen label with smoothly
decreasing mass toward adjacent labels. -/
def probGood (overall : ℚ) : ℚ :=
  if 85 ≤ overall then scoreConfidence overall
  else if 70 ≤ overall then 1/20 + (overall - 70) / 60
  else overall / 1400

/-- Modelled from the spec: probability assigned to the Poor label by
the score-based classifier. -/
def probPoor (overall : ℚ) : ℚ :=
  if 85 ≤ overall then 0
  else if 70 ≤ overall then 1 - scoreConfidence overall - probGood overall
  else scoreConfidence overall

/-- Modelled from the spec: probability assigned to the Needs
Improvement label; the three probabilities sum to one. -/
def probNeedsImprovement (overall : ℚ) : ℚ :=
  1 - probGood overall - probPoor overall

/-! ## Theorems for claims C1, C2, C3 -/

theorem clamp_of_bounds (x : ℚ) (h0 : 0 ≤ x) (h1 : x ≤ 100) :
    max 0 (min 100 x) = x := by
  rw [min_eq_right h1, max_eq_right h0]

theorem exerciseWeights_deadlift :
    exerciseWeights deadliftType =
      { knee := 2/10, spine := 35/100, hip := 25/100, bar_path := 2/10 } := rfl

theorem exerciseWeights_squat :
    exerciseWeights squatType =
      { knee := 3/10, spine := 25/100, hip := 25/100, bar_path := 2/10 } := rfl

theorem exerciseWeights_bench :
    exerciseWeights benchType =
      { knee := 1/10, spine := 2/10, hip := 2/10, bar_path := 5/10 } := rfl

/-- Claim C1: for each of the three exercise types and component scores
in [0,100], `calculate_overall_score` equals the weighted sum of the
four components with that exercise's weight table, the four weights sum
to 1, and the overall score again lies in [0,100]. -/
theorem calculate_overall_score_weighted (ex : String)
    (hex : ex = deadliftType ∨ ex = squatType ∨ ex = benchType)
    (k s h b : ℚ)
    (hk0 : 0 ≤ k) (hk1 : k ≤ 100) (hs0 : 0 ≤ s) (hs1 : s ≤ 100)
    (hh0 : 0 ≤ h) (hh1 : h ≤ 100) (hb0 : 0 ≤ b) (hb1 : b ≤ 100) :
    calculate_overall_score k s h b ex =
        k * (exerciseWeights ex).knee + s * (exerciseWeights ex).spine +
          h * (exerciseWeights ex).hip + b * (exerciseWeights ex).bar_path ∧
      (exerciseWeights ex).knee + (exerciseWeights ex).spine +
          (exerciseWeights ex).hip + (exerciseWeights ex).bar_path = 1 ∧
      0 ≤ calculate_overall_score k s h b ex ∧
      calculate_overall_score k s h b ex ≤ 100 := by
  have key : ∀ w : FormWeights, 0 ≤ w.knee → 0 ≤ w.spine → 0 ≤ w.hip → 0 ≤ w.bar_path →
      w.knee + w.spine + w.hip + w.bar_path = 1 →
      exerciseWeights ex = w →
      calculate_overall_score k s h b ex =
          k * w.knee + s * w.spine + h * w.hip + b * w.bar_path ∧
        w.knee + w.spine + w.hip + w.bar_path = 1 ∧
        0 ≤ calculate_overall_score k s h b ex ∧
        calculate_overall_score k s h b ex ≤ 100 := by
    intro w hw1 hw2 hw3 hw4 hsum hweq
    have hlo : 0 ≤ k * w.knee + s * w.spine + h * w.hip + b * w.bar_path := by
      have := mul_nonneg hk0 hw1
      have := mul_nonneg hs0 hw2
      have := mul_nonneg hh0 hw3
      have := mul_nonneg hb0 hw4
      linarith
    have hhi : k * w.knee + s * w.spine + h * w.hip + b * w.bar_path ≤ 100 := by
      have h1 : k * w.knee ≤ 100 * w.knee := mul_le_mul_of_nonneg_right hk1 hw1
      have h2 : s * w.spine ≤ 100 * w.spine := mul_le_mul_of_nonneg_right hs1 hw2
      have h3 : h * w.hip ≤ 100 * w.hip := mul_le_mul_of_nonneg_right hh1 hw3
      have h4 : b * w.bar_path ≤ 100 * w.bar_path := mul_le_mul_of_nonneg_right hb1 hw4
      nlinarith [hsum]
    have hval : calculate_overall_score k s h b ex =
        k * w.knee + s * w.spine + h * w.hip + b * w.bar_path := by
      unfold calculate_overall_score
      rw [hweq]
      exact clamp_of_bounds _ hlo hhi
    refine ⟨hval, hsum, ?_, ?_⟩
    · rw [hval]; exact hlo
    · rw [hval]; exact hhi
  rcases hex with rfl | rfl | rfl
  · exact key { knee := 2/10, spine := 35/100, hip := 25/100, bar_path := 2/10 }
      (by norm_num) (by norm_num) (by norm_num) (by norm_num) (by norm_num)
      exerciseWeights_deadlift
  · exact key { knee := 3/10, spine := 25/100, hip := 25/100, bar_path := 2/10 }
      (by norm_num) (by norm_num) (by norm_num) (by norm_num) (by norm_num)
      exerciseWeights_squat
  · exact key { knee := 1/10, spine := 2/10, hip := 2/10, bar_path := 5/10 }
      (by norm_num) (by norm_num) (by norm_num) (by norm_num) (by norm_num)
      exerciseWeights_bench

/-- Witness for claim C1 at the deadlift weight table and component
scores 50, 50, 50, 50. -/
theorem calculate_overall_score_weighted_witness :
    calculate_overall_score 50 50 50 50 deadliftType =
        50 * (exerciseWeights deadliftType).knee +
          50 * (exerciseWeights deadliftType).spine +
          50 * (exerciseWeights deadliftType).hip +
          50 * (exerciseWeights deadliftType).bar_path ∧
      (exerciseWeights deadliftType).knee + (exerciseWeights deadliftType).spine +
          (exerciseWeights deadliftType).hip + (exerciseWeights deadliftType).bar_path = 1 ∧
      0 ≤ calculate_overall_score 50 50 50 50 deadliftType ∧
      calculate_overall_score 50 50 50 50 deadliftType ≤ 100 :=
  calculate_overall_score_weighted deadliftType (Or.inl rfl) 50 50 50 50
    (by norm_num) (by norm_num) (by norm_num) (by norm_num)
    (by norm_num) (by norm_num) (by norm_num) (by norm_num)

/-- Claim C2: a deadlift repetition with component scores 95, 60, 80, 90
gets the overall score 0.2*95 + 0.35*60 + 0.25*80 + 0.2*90 = 78, and the
score-based classifier labels 78 as Needs Improvement. -/
theorem deadlift_scenario_score :
    calculate_overall_score 95 60 80 90 deadliftType = 78 ∧
      (78 : ℚ) = (2/10) * 95 + (35/100) * 60 + (25/100) * 80 + (2/10) * 90 ∧
      scoreLabel 78 = needsImprovementLabel := by
  refine ⟨?_, by norm_num, ?_⟩
  · simp only [calculate_overall_score, exerciseWeights_deadlift]
    norm_num
  · simp only [scoreLabel]
    norm_num

/-- Claim C3: a bench-press repetition with component scores 90, 90, 90,
40 gets the overall score 0.1*90 + 0.2*90 + 0.2*90 + 0.5*40 = 65 (bar
path weighted at one half), and the score-based classifier labels 65 as
Poor. -/
theorem bench_scenario_score :
    calculate_overall_score 90 90 90 40 benchType = 65 ∧
      (65 : ℚ) = (1/10) * 90 + (2/10) * 90 + (2/10) * 90 + (5/10) * 40 ∧
      (exerciseWeights benchType).bar_path = 1/2 ∧
      scoreLabel 65 = poorLabel := by
  refine ⟨?_, by norm_num, ?_, ?_⟩
  · simp only [calculate_overall_score, exerciseWeights_bench]
    norm_num
  · rw [exerciseWeights_bench]
    norm_num
  · simp only [scoreLabel]
    norm_num

/-! ## Frame ingestion (source: `handle_frame`)

The streaming handler validates only the frame payload: a missing
payload or one that does not start with a data-image prefix is answered
with an analysis error, anything else is enqueued for the worker.  The
exercise type carried by the request is never inspected. -/

def dataImageMarker : String := "data:image"

def invalidFrameMessage : String := "Invalid frame data"

def curlType : String := "curl"

def sampleFramePayload : String := "data:image/jpeg;base64,AAAA"

/-- Embedding of the Python prefix test used by the handler: the frame
payload starts with the data-image marker. -/
def startsWithMarker (s : String) : Bool :=
  dataImageMarker.data.isPrefixOf s.data

structure FrameRequest where
  frame : String
  exercise_type : String
  deriving Repr, DecidableEq

inductive FrameHandling where
  | validationError (message : String) : FrameHandling
  | enqueued : FrameHandling
  deriving Repr, DecidableEq

/-- Embedding of the `analyze_frame` handler: reject when the frame
payload is empty or lacks the data-image prefix, otherwise enqueue. -/
def handle_frame (data : FrameRequest) : FrameHandling :=
  if data.frame = "" ∨ startsWithMarker data.frame = false then
    FrameHandling.validationError invalidFrameMessage
  else
    FrameHandling.enqueued

theorem exerciseWeights_curl :
    exerciseWeights curlType =
      { knee := 25/100, spine := 25/100, hip := 25/100, bar_path := 25/100 } := rfl

/-- Claim C8 counterexample: a request with the unsupported exercise
type curl and a well-formed frame payload is not rejected — the handler
enqueues it, and the scorer computes an overall score for it (55, via
the default weight table), contradicting the claim that no score is
computed for unsupported exercise types. -/
theorem unsupported_exercise_not_rejected :
    handle_frame { frame := sampleFramePayload, exercise_type := curlType } =
        FrameHandling.enqueued ∧
      calculate_overall_score 100 60 40 20 curlType = 55 := by
  constructor
  · decide
  · simp only [calculate_overall_score, exerciseWeights_curl]
    norm_num

/-- Claim C8 amended: a request carrying an unsupported exercise type is
not rejected; frame validation looks only at the payload prefix, and
`calculate_overall_score` silently falls back to the default weight
table of four equal weights 0.25, so a score is computed. -/
theorem unsupported_exercise_default_weights (ex : String)
    (hd : ex ≠ deadliftType) (hs : ex ≠ squatType) (hb : ex ≠ benchType)
    (k s h b : ℚ) (fd : String)
    (hfd : startsWithMarker fd = true) (hfd0 : fd ≠ "") :
    calculate_overall_score k s h b ex =
        max 0 (min 100 (k * (25/100) + s * (25/100) + h * (25/100) + b * (25/100))) ∧
      handle_frame { frame := fd, exercise_type := ex } = FrameHandling.enqueued := by
  constructor
  · unfold calculate_overall_score exerciseWeights
    rw [if_neg hd, if_neg hs, if_neg hb]
  · unfold handle_frame
    simp [hfd, hfd0]

/-- Witness for the amended claim C8 at exercise type curl, component
scores 100, 60, 40, 20 and a concrete data-image frame payload. -/
theorem unsupported_exercise_default_weights_witness :
    calculate_overall_score 100 60 40 20 curlType =
        max 0 (min 100 ((100 : ℚ) * (25/100) + 60 * (25/100) + 40 * (25/100) +
          20 * (25/100))) ∧
      handle_frame { frame := sampleFramePayload, exercise_type := curlType } =
        FrameHandling.enqueued :=
  unsupported_exercise_default_weights curlType (by decide) (by decide) (by decide)
    100 60 40 20 sampleFramePayload (by decide) (by decide)

/-! ## Batch retraining (modelled from the spec)

The batch-retraining module `retrain_mcsvm.py` is not among the
sources; its eligibility criteria and rollback behaviour are modelled
from the repository's retraining documentation. -/

def min_feedback_total : ℕ := 20

def min_feedback_per_exercise : ℕ := 5

def retraining_interval_days : ℚ := 1

/-- Inputs consulted by the retraining-eligibility check: the stored
feedback entries (represented by the exercise type of each entry) and
the time in days since the last retraining of the queried exercise. -/
structure RetrainingInputs where
  feedback_entries : List String
  days_since_last_retraining : ℚ

/-- Modelled from the spec: `evaluate_retraining` of the absent
`retrain_mcsvm.py` requires at least 20 feedback entries in total, at
least 5 for the queried exercise, and at least 1 day since the last
retraining of that exercise. -/
def evaluate_retraining (st : RetrainingInputs) (exercise_type : String) : Bool :=
  decide (min_feedback_total ≤ st.feedback_entries.length) &&
    decide (min_feedback_per_exercise ≤
      (st.feedback_entries.filter (fun e => e = exercise_type)).length) &&
    decide (retraining_interval_days ≤ st.days_since_last_retraining)

/-- Claim C5: `evaluate_retraining` returns true exactly when all three
eligibility conditions hold — total feedback at least the global
minimum of 20, per-exercise feedback at least 5, and at least the
1-day cooldown elapsed since the last retraining; it returns false
whenever any one of them is unmet. -/
theorem evaluate_retraining_iff (st : RetrainingInputs) (exercise_type : String) :
    evaluate_retraining st exercise_type = true ↔
      min_feedback_total ≤ st.feedback_entries.length ∧
        min_feedback_per_exercise ≤
          (st.feedback_entries.filter (fun e => e = exercise_type)).length ∧
        retraining_interval_days ≤ st.days_since_last_retraining := by
  simp [evaluate_retraining, and_assoc]

structure ModelVersion where
  version : ℕ
  feedback_count : ℕ
  deriving Repr, DecidableEq

structure ModelRegistryEntry where
  active : ModelVersion
  backup : Option ModelVersion
  deriving Repr, DecidableEq

/-- Modelled from the spec: the body of `retrain(exercise_type)` is not
among the sources; per the retraining documentation a successful fit
and validation atomically promotes the new model and moves the previous
active version to backup, while any exception during fit or validation
aborts the swap and leaves the registry unchanged. -/
def retrain (reg : ModelRegistryEntry) (fit_result : Except String ModelVersion) :
    ModelRegistryEntry :=
  match fit_result with
  | Except.error _ => reg
  | Except.ok m => { active := m, backup := some reg.active }

/-- Claim C6: when fitting or validation fails, `retrain` leaves the
registry — in particular the previously active model version — entirely
unchanged, so no partially-updated model ever becomes active. -/
theorem retrain_failure_keeps_active (reg : ModelRegistryEntry) (msg : String) :
    retrain reg (Except.error msg) = reg ∧
      (retrain reg (Except.error msg)).active = reg.active :=
  ⟨rfl, rfl⟩

/-! ## Monotonicity of the score-based classifier (claim C7) -/

theorem probGood_of_ge85 (s : ℚ) (h : 85 ≤ s) :
    probGood s = 4/5 + (s - 85) / 100 := by
  simp [probGood, scoreConfidence, if_pos h]

theorem probGood_of_mid (s : ℚ) (h85 : ¬ 85 ≤ s) (h70 : 70 ≤ s) :
    probGood s = 1/20 + (s - 70) / 60 := by
  simp [probGood, if_neg h85, if_pos h70]

theorem probGood_of_lt70 (s : ℚ) (h85 : ¬ 85 ≤ s) (h70 : ¬ 70 ≤ s) :
    probGood s = s / 1400 := by
  simp [probGood, if_neg h85, if_neg h70]

theorem probPoor_of_ge85 (s : ℚ) (h : 85 ≤ s) : probPoor s = 0 := by
  simp [probPoor, if_pos h]

theorem probPoor_of_mid (s : ℚ) (h85 : ¬ 85 ≤ s) (h70 : 70 ≤ s) :
    probPoor s =
      1 - (7/10 + min (s - 70) (85 - s) / 100) - (1/20 + (s - 70) / 60) := by
  simp [probPoor, scoreConfidence, probGood, if_neg h85, if_pos h70]

theorem probPoor_of_lt70 (s : ℚ) (h85 : ¬ 85 ≤ s) (h70 : ¬ 70 ≤ s) :
    probPoor s = 13/20 + (70 - s) * 3 / 2000 := by
  simp [probPoor, scoreConfidence, if_neg h85, if_neg h70]

/-- Claim C7: for the score-based classifier, a strictly larger overall
score never decreases the probability of the Good label and never
increases the probability of the Poor label, over the whole score range
[0, 100]. -/
theorem score_classifier_monotone (s1 s2 : ℚ)
    (h0 : 0 ≤ s1) (h12 : s1 < s2) (h100 : s2 ≤ 100) :
    probGood s1 ≤ probGood s2 ∧ probPoor s2 ≤ probPoor s1 := by
  by_cases ha1 : 85 ≤ s1
  · have ha2 : 85 ≤ s2 := by linarith
    rw [probGood_of_ge85 s1 ha1, probGood_of_ge85 s2 ha2,
      probPoor_of_ge85 s1 ha1, probPoor_of_ge85 s2 ha2]
    constructor <;> linarith
  · by_cases hb1 : 70 ≤ s1
    · by_cases ha2 : 85 ≤ s2
      · rw [probGood_of_mid s1 ha1 hb1, probGood_of_ge85 s2 ha2,
          probPoor_of_mid s1 ha1 hb1, probPoor_of_ge85 s2 ha2]
        have hm1 : min (s1 - 70) (85 - s1) ≤ 85 - s1 := min_le_right _ _
        have hs1 : s1 < 85 := lt_of_not_le ha1
        constructor <;> linarith
      · have hb2 : 70 ≤ s2 := by linarith
        rw [probGood_of_mid s1 ha1 hb1, probGood_of_mid s2 ha2 hb2,
          probPoor_of_mid s1 ha1 hb1, probPoor_of_mid s2 ha2 hb2]
        have hs1 : s1 < 85 := lt_of_not_le ha1
        have hs2 : s2 < 85 := lt_of_not_le ha2
        rcases le_total (s1 - 70) (85 - s1) with hc1 | hc1 <;>
          rcases le_total (s2 - 70) (85 - s2) with hc2 | hc2
        · rw [min_eq_left hc1, min_eq_left hc2]
          constructor <;> linarith
        · rw [min_eq_left hc1, min_eq_right hc2]
          constructor <;> linarith
        · rw [min_eq_right hc1, min_eq_left hc2]
          constructor <;> linarith
        · rw [min_eq_right hc1, min_eq_right hc2]
          constructor <;> linarith
    · have hs1 : s1 < 70 := lt_of_not_le hb1
      by_cases ha2 : 85 ≤ s2
      · rw [probGood_of_lt70 s1 ha1 hb1, probGood_of_ge85 s2 ha2,
          probPoor_of_lt70 s1 ha1 hb1, probPoor_of_ge85 s2 ha2]
        constructor <;> linarith
      · by_cases hb2 : 70 ≤ s2
        · rw [probGood_of_lt70 s1 ha1 hb1, probGood_of_mid s2 ha2 hb2,
            probPoor_of_lt70 s1 ha1 hb1, probPoor_of_mid s2 ha2 hb2]
          have hs2 : s2 < 85 := lt_of_not_le ha2
          have hm2 : 0 ≤ min (s2 - 70) (85 - s2) :=
            le_min (by linarith) (by linarith)
          constructor <;> linarith
        · rw [probGood_of_lt70 s1 ha1 hb1, probGood_of_lt70 s2 ha2 hb2,
            probPoor_of_lt70 s1 ha1 hb1, probPoor_of_lt70 s2 ha2 hb2]
          constructor <;> linarith

/-- Witness for claim C7 at overall scores 60 and 90. -/
theorem score_classifier_monotone_witness :
    probGood 60 ≤ probGood 90 ∧ probPoor 90 ≤ probPoor 60 :=
  score_classifier_monotone 60 90 (by norm_num) (by norm_num) (by norm_num)

/-! ## Bar-path efficiency (source: `calculate_bar_path_efficiency`)

Translated from the backend implementation: the horizontal standard
deviation of the barbell positions and an average angular change
between consecutive displacement vectors produce two capped deductions
from a base score of 100, and the result is clamped to [0,100].
Square roots and arc-cosines force this part of the embedding into ℝ. -/

noncomputable def vecNorm (v : ℝ × ℝ) : ℝ := Real.sqrt (v.1 ^ 2 + v.2 ^ 2)

/-- Normalisation step of the smoothness loop: a displacement vector is
divided by its norm only when the norm is positive, otherwise it is
left untouched. -/
noncomputable def normalizeVec (v : ℝ × ℝ) : ℝ × ℝ :=
  if 0 < vecNorm v then (v.1 / vecNorm v, v.2 / vecNorm v) else v

noncomputable def listMean (xs : List ℝ) : ℝ := xs.sum / xs.length

/-- Population standard deviation, as computed by `np.std`. -/
noncomputable def listStd (xs : List ℝ) : ℝ :=
  Real.sqrt ((xs.map (fun x => (x - listMean xs) ^ 2)).sum / xs.length)

def vecSub (a b : ℝ × ℝ) : ℝ × ℝ := (a.1 - b.1, a.2 - b.2)

/-- Angle between two consecutive displacement vectors: the dot product
of the normalised vectors is clipped to [-1,1] before the arc-cosine. -/
noncomputable def stepAngle (u v : ℝ × ℝ) : ℝ :=
  let pu := normalizeVec u
  let pv := normalizeVec v
  Real.arccos (max (-1) (min 1 (pu.1 * pv.1 + pu.2 * pv.2)))

/-- Sum of the angular changes over indices 2 … length-1, as in the
Python loop `for i in range(2, len(barbell_positions))`. -/
noncomputable def smoothnessSum (ps : List (ℝ × ℝ)) : ℝ :=
  ((List.range ps.length).drop 2).foldl
    (fun acc i =>
      acc + stepAngle (vecSub (ps.getD (i - 1) (0, 0)) (ps.getD (i - 2) (0, 0)))
        (vecSub (ps.getD i (0, 0)) (ps.getD (i - 1) (0, 0)))) 0

/-- Average angular change; defined to be 0 when the list has fewer
than three positions, mirroring `if len(barbell_positions) > 2 else 0`. -/
noncomputable def path_smoothness (ps : List (ℝ × ℝ)) : ℝ :=
  if 2 < ps.length then smoothnessSum ps / ((ps.length : ℝ) - 2) else 0

/-- The pre-clamp score of `calculate_bar_path_efficiency`: 100 minus
the capped horizontal-deviation and smoothness deductions. -/
noncomputable def bar_path_raw_score (ps : List (ℝ × ℝ)) : ℝ :=
  let x_deviation := listStd (ps.map Prod.fst)
  let path_smoothness_degrees := path_smoothness ps * (180 / Real.pi)
  let base_score : ℝ := 100
  let score1 :=
    if 1/100 < x_deviation then base_score - min 25 (x_deviation * 1000)
    else base_score
  if 5 < path_smoothness_degrees then
    score1 - min 15 ((path_smoothness_degrees - 5) * 3/2)
  else score1

/-- Embedding of `calculate_bar_path_efficiency(barbell_positions)`. -/
noncomputable def calculate_bar_path_efficiency (ps : List (ℝ × ℝ)) : ℝ :=
  max 0 (min 100 (bar_path_raw_score ps))

/-- Claim C10: `calculate_bar_path_efficiency` is total and safe: its
result always lies in [0,100]; with fewer than three positions the
smoothness penalty is 0; and a zero-length displacement vector is left
unnormalised rather than divided by zero. -/
theorem bar_path_efficiency_safe (ps : List (ℝ × ℝ)) (v : ℝ × ℝ)
    (hv : vecNorm v = 0) :
    0 ≤ calculate_bar_path_efficiency ps ∧
      calculate_bar_path_efficiency ps ≤ 100 ∧
      (ps.length < 3 → path_smoothness ps = 0) ∧
      normalizeVec v = v := by
  refine ⟨?_, ?_, ?_, ?_⟩
  · exact le_max_left 0 _
  · simp only [calculate_bar_path_efficiency]
    exact max_le (by norm_num) (min_le_left _ _)
  · intro h
    unfold path_smoothness
    rw [if_neg (by omega)]
  · unfold normalizeVec
    rw [hv]
    simp

/-- Witness for claim C10 at the empty position list and the zero
displacement vector. -/
theorem bar_path_efficiency_safe_witness :
    0 ≤ calculate_bar_path_efficiency [] ∧
      calculate_bar_path_efficiency [] ≤ 100 ∧
      (([] : List (ℝ × ℝ)).length < 3 → path_smoothness [] = 0) ∧
      normalizeVec ((0 : ℝ), (0 : ℝ)) = ((0 : ℝ), (0 : ℝ)) :=
  bar_path_efficiency_safe [] ((0 : ℝ), (0 : ℝ)) (by simp [vecNorm])

/-! ## Per-frame processing and its error handling (claim C9)

`safe_process_frame` is translated from the sources: it runs the frame
pipeline and converts any raised exception into a fallback response
with error status and all-zero scores.  The body of `process_frame`
itself is not among the sources; its degraded-signal behaviour is
modelled from the spec, with the per-frame scorer abstracted as the
`analyze` argument. -/

structure ScoreSet where
  knee_alignment : ℚ
  spine_alignment : ℚ
  hip_stability : ℚ
  bar_path_efficiency : ℚ
  overall : ℚ
  deriving Repr, DecidableEq

def zeroScores : ScoreSet :=
  { knee_alignment := 0, spine_alignment := 0, hip_stability := 0,
    bar_path_efficiency := 0, overall := 0 }

def okStatus : String := "ok"

def errorStatus : String := "error"

def decodeFailureMessage : String := "Could not decode frame"

def min_landmark_confidence : ℚ := 1/2

structure SessionState where
  last_landmarks : Option (List (ℚ × ℚ))
  last_barbell_y : Option ℚ
  last_scores : ScoreSet
  deriving Repr, DecidableEq

structure LiveFrame where
  decoded : Bool
  landmarks : Option (List (ℚ × ℚ))
  landmark_confidence : ℚ
  barbell_y : Option ℚ
  deriving Repr, DecidableEq

structure FrameAnalysis where
  status : String
  scores : ScoreSet
  barbell_detected : Bool
  confidence : ℚ
  deriving Repr, DecidableEq

/-- A frame's landmark signal is degraded when no landmarks were
detected or their confidence is below the threshold. -/
def landmarksDegraded (f : LiveFrame) : Bool :=
  f.landmarks.isNone || decide (f.landmark_confidence < min_landmark_confidence)

/-- Hold-last policy for landmarks: degraded frames reuse the last
valid landmark set. -/
def usedLandmarks (st : SessionState) (f : LiveFrame) : Option (List (ℚ × ℚ)) :=
  if landmarksDegraded f then st.last_landmarks else f.landmarks

/-- Hold-last policy for the barbell position. -/
def usedBarbell (st : SessionState) (f : LiveFrame) : Option ℚ :=
  if f.barbell_y.isSome then f.barbell_y else st.last_barbell_y

/-- Scores attached to the frame: recomputed only from a healthy
landmark signal with a known barbell position, otherwise the previous
valid scores are propagated. -/
def frameScores (analyze : List (ℚ × ℚ) → ℚ → ScoreSet)
    (st : SessionState) (f : LiveFrame) : ScoreSet :=
  if landmarksDegraded f then st.last_scores
  else
    match f.landmarks, usedBarbell st f with
    | some lms, some b0 => analyze lms b0
    | _, _ => st.last_scores

/-- Confidence reported for the frame, lowered on a degraded signal. -/
def frameConfidence (f : LiveFrame) : ℚ :=
  if landmarksDegraded f then f.landmark_confidence / 2 else f.landmark_confidence

/-- Modelled from the spec: the body of `process_frame` is not among
the sources; per the spec it tolerates missing or low-confidence
landmarks and a missing barbell by substituting the last valid values
and lowering confidence, and raises only when the frame cannot be
decoded. -/
def process_frame (analyze : List (ℚ × ℚ) → ℚ → ScoreSet)
    (st : SessionState) (f : LiveFrame) :
    Except String (FrameAnalysis × SessionState) :=
  if f.decoded = false then Except.error decodeFailureMessage
  else
    Except.ok
      ({ status := okStatus, scores := frameScores analyze st f,
         barbell_detected := f.barbell_y.isSome, confidence := frameConfidence f },
       { last_landmarks := usedLandmarks st f, last_barbell_y := usedBarbell st f,
         last_scores := frameScores analyze st f })

/-- Embedding of `safe_process_frame`: any exception raised by the
frame pipeline is caught and answered with the fallback response —
error status and all-zero scores — leaving the session state unchanged. -/
def safe_process_frame (analyze : List (ℚ × ℚ) → ℚ → ScoreSet)
    (st : SessionState) (f : LiveFrame) : FrameAnalysis × SessionState :=
  match process_frame analyze st f with
  | Except.ok r => r
  | Except.error _ =>
      ({ status := errorStatus, scores := zeroScores,
         barbell_detected := false, confidence := 0 }, st)

/-- Claim C9: a decoded frame with missing or low-confidence landmarks
or no detected barbell never aborts processing: the result keeps the ok
status (never the zero-score error fallback), degraded landmarks leave
the previous valid scores in place, and a missing barbell yields
barbell_detected = false while the last barbell position is retained. -/
theorem safe_process_frame_degraded (analyze : List (ℚ × ℚ) → ℚ → ScoreSet)
    (st : SessionState) (f : LiveFrame) (hdec : f.decoded = true)
    (hdeg : f.landmarks = none ∨ f.landmark_confidence < min_landmark_confidence ∨
      f.barbell_y = none) :
    (safe_process_frame analyze st f).1.status = okStatus ∧
      ((f.landmarks = none ∨ f.landmark_confidence < min_landmark_confidence) →
        (safe_process_frame analyze st f).1.scores = st.last_scores) ∧
      (f.barbell_y = none →
        (safe_process_frame analyze st f).1.barbell_detected = false ∧
          (safe_process_frame analyze st f).2.last_barbell_y = st.last_barbell_y) := by
  have hrun : safe_process_frame analyze st f =
      ({ status := okStatus, scores := frameScores analyze st f,
         barbell_detected := f.barbell_y.isSome, confidence := frameConfidence f },
       { last_landmarks := usedLandmarks st f, last_barbell_y := usedBarbell st f,
         last_scores := frameScores analyze st f }) := by
    unfold safe_process_frame process_frame
    rw [hdec]
    simp
  rw [hrun]
  refine ⟨rfl, ?_, ?_⟩
  · intro hlm
    have hdg : landmarksDegraded f = true := by
      rcases hlm with h | h
      · simp [landmarksDegraded, h]
      · simp [landmarksDegraded, h]
    simp [frameScores, hdg]
  · intro hbb
    constructor
    · simp [hbb]
    · simp [usedBarbell, hbb]

/-- Sample scores held by a session before a degraded frame arrives. -/
def sampleHeldScores : ScoreSet :=
  { knee_alignment := 90, spine_alignment := 80, hip_stability := 70,
    bar_path_efficiency := 60, overall := 75 }

/-- Sample session state with valid last-known-good values. -/
def sampleSession : SessionState :=
  { last_landmarks := some [(1/2, 1/2)], last_barbell_y := some (1/4),
    last_scores := sampleHeldScores }

/-- Sample decoded frame whose landmarks and barbell are both missing. -/
def degradedFrame : LiveFrame :=
  { decoded := true, landmarks := none, landmark_confidence := 0,
    barbell_y := none }

/-- Placeholder per-frame scorer used only by the witness. -/
def constantAnalyzer : List (ℚ × ℚ) → ℚ → ScoreSet := fun _ _ => zeroScores

/-- Witness for claim C9: a decoded frame with no landmarks and no
barbell, processed against a session that holds earlier valid scores. -/
theorem safe_process_frame_degraded_witness :
    (safe_process_frame constantAnalyzer sampleSession degradedFrame).1.status =
        okStatus ∧
      ((degradedFrame.landmarks = none ∨
          degradedFrame.landmark_confidence < min_landmark_confidence) →
        (safe_process_frame constantAnalyzer sampleSession degradedFrame).1.scores =
          sampleSession.last_scores) ∧
      (degradedFrame.barbell_y = none →
        (safe_process_frame constantAnalyzer sampleSession
              degradedFrame).1.barbell_detected = false ∧
          (safe_process_frame constantAnalyzer sampleSession
              degradedFrame).2.last_barbell_y = sampleSession.last_barbell_y) :=
  safe_process_frame_degraded constantAnalyzer sampleSession degradedFrame
    rfl (Or.inl rfl)

/-! ## Repetition detection (source: `detect_repetitions`)

The detector smooths the barbell height series with a Savitzky–Golay
filter (window 11, order 2), finds peaks and valleys by prominence, and
pairs every two consecutive valleys with the highest peak between them.
A series shorter than the filter window makes the filter raise, so the
embedding returns an error in that case. -/

def windowTooLargeMessage : String := "window_length is too large for input"

def savgolWindow : ℕ := 11

def savgolHalf : ℕ := 5

def powSum (n k : ℕ) : ℚ :=
  ((List.range n).map (fun i => ((i : ℚ)) ^ k)).sum

/-- Least-squares quadratic fit of the window values against abscissas
0 … length-1 — the normal equations solved by Cramer's rule — evaluated
at the given abscissa; this is degree-2 `np.polyfit` followed by
`np.polyval`. -/
def quadFitEval (ys : List ℚ) (x : ℚ) : ℚ :=
  let s0 : ℚ := ys.length
  let s1 := powSum ys.length 1
  let s2 := powSum ys.length 2
  let s3 := powSum ys.length 3
  let s4 := powSum ys.length 4
  let t0 := ys.sum
  let t1 := (ys.enum.map (fun q => ((q.1 : ℚ)) * q.2)).sum
  let t2 := (ys.enum.map (fun q => ((q.1 : ℚ)) ^ 2 * q.2)).sum
  let det := s0 * (s2 * s4 - s3 * s3) - s1 * (s1 * s4 - s2 * s3) +
    s2 * (s1 * s3 - s2 * s2)
  let a := (t0 * (s2 * s4 - s3 * s3) - s1 * (t1 * s4 - s3 * t2) +
    s2 * (t1 * s3 - s2 * t2)) / det
  let b := (s0 * (t1 * s4 - s3 * t2) - t0 * (s1 * s4 - s3 * s2) +
    s2 * (s1 * t2 - t1 * s2)) / det
  let c := (s0 * (s2 * t2 - t1 * s3) - s1 * (s1 * t2 - t1 * s2) +
    t0 * (s1 * s3 - s2 * s2)) / det
  a + b * x + c * x ^ 2

/-- Savitzky–Golay filter, window length 11, polynomial order 2,
interpolation mode: interior samples take the centred-window fit at the
window centre; the first and last five samples take the fit of the
first and last full window evaluated at their position inside it. -/
def savgol_filter (ys : List ℚ) : List ℚ :=
  let n := ys.length
  (List.range n).map (fun i =>
    if i < savgolHalf then quadFitEval (ys.take savgolWindow) (i : ℚ)
    else if n ≤ i + savgolHalf then
      quadFitEval (ys.drop (n - savgolWindow)) ((((i + savgolWindow) - n : ℕ)) : ℚ)
    else quadFitEval ((ys.drop (i - savgolHalf)).take savgolWindow) (savgolHalf : ℚ))

/-- Scan for the end of a plateau of samples equal to the value `v`,
starting at index `j` and never passing `iMax`. -/
def findAheadAux (x : List ℚ) (iMax : ℕ) (v : ℚ) : ℕ → ℕ → ℕ
  | 0, j => j
  | fuel + 1, j =>
    if j < iMax ∧ x.getD j 0 = v then findAheadAux x iMax v fuel (j + 1) else j

/-- Main loop of the local-maxima scan: a sample is a maximum when its
left neighbour is strictly smaller and the first differing sample to
its right is strictly smaller; a plateau contributes its midpoint. -/
def localMaximaAux (x : List ℚ) (iMax : ℕ) : ℕ → ℕ → List ℕ
  | 0, _ => []
  | fuel + 1, i =>
    if i < iMax then
      if x.getD (i - 1) 0 < x.getD i 0 then
        let iAhead := findAheadAux x iMax (x.getD i 0) x.length (i + 1)
        if x.getD iAhead 0 < x.getD i 0 then
          ((i + (iAhead - 1)) / 2) :: localMaximaAux x iMax fuel (iAhead + 1)
        else localMaximaAux x iMax fuel (i + 1)
      else localMaximaAux x iMax fuel (i + 1)
    else []

/-- All interior local maxima of a series, boundary samples excluded. -/
def local_maxima (x : List ℚ) : List ℕ :=
  localMaximaAux x (x.length - 1) x.length 1

/-- Prominence of the local maximum at index `p`: its height above the
higher of the two minima reached while scanning left and right without
crossing a strictly higher sample. -/
def peakProminence (x : List ℚ) (p : ℕ) : ℚ :=
  let v := x.getD p 0
  let leftRun := ((x.take (p + 1)).reverse).takeWhile (fun y => decide (y ≤ v))
  let rightRun := (x.drop p).takeWhile (fun y => decide (y ≤ v))
  v - max (leftRun.foldl min v) (rightRun.foldl min v)

/-- Peaks whose prominence reaches the requested minimum, as returned
by `find_peaks(x, prominence=...)`. -/
def find_peaks (x : List ℚ) (prominence_min : ℚ) : List ℕ :=
  (local_maxima x).filter (fun p => decide (prominence_min ≤ peakProminence x p))

/-- First index of maximal smoothed value in a list of peak indices,
as computed by Python's `max` with a key function. -/
def argmaxBySmoothed (smoothed : List ℚ) : List ℕ → Option ℕ
  | [] => none
  | a :: rest =>
    some (rest.foldl
      (fun best q => if smoothed.getD best 0 < smoothed.getD q 0 then q else best) a)

/-- Pairing loop of the detector: every two consecutive valleys with at
least one peak strictly between them yield the triple (first valley,
highest peak between, second valley). -/
def pairReps (smoothed : List ℚ) (peaks valleys : List ℕ) : List (ℕ × ℕ × ℕ) :=
  (valleys.zip valleys.tail).filterMap (fun q =>
    let between := peaks.filter (fun p => decide (q.1 < p ∧ p < q.2))
    match argmaxBySmoothed smoothed between with
    | some rp => some (q.1, rp, q.2)
    | none => none)

/-- Embedding of `detect_repetitions(barbell_positions, threshold)`. -/
def detect_repetitions (barbell_positions : List ℚ) (threshold : ℚ) :
    Except String (List (ℕ × ℕ × ℕ)) :=
  if barbell_positions.length < savgolWindow then
    Except.error windowTooLargeMessage
  else
    let smoothed := savgol_filter barbell_positions
    let peaks := find_peaks smoothed threshold
    let valleys := find_peaks (smoothed.map (fun v => -v)) threshold
    Except.ok (pairReps smoothed peaks valleys)

/-! ## Theorem and witness computations for claim C4 -/

/-- Claim C4: a barbell height series containing exactly one clean
valley–peak–valley excursion above the prominence threshold — the
smoothed series has exactly one peak `p` and exactly two valleys
`v1 < p < v2` of sufficient prominence — yields exactly the one
completed repetition `(v1, p, v2)`; and a series all of whose valley
candidates stay below the prominence threshold yields no repetition. -/
theorem detect_repetitions_single_and_none (xs ys0 : List ℚ) (t : ℚ)
    (p v1 v2 : ℕ)
    (hxlen : savgolWindow ≤ xs.length)
    (hp : find_peaks (savgol_filter xs) t = [p])
    (hv : find_peaks ((savgol_filter xs).map (fun v => -v)) t = [v1, v2])
    (h1 : v1 < p) (h2 : p < v2)
    (hylen : savgolWindow ≤ ys0.length)
    (hsub : ∀ q ∈ local_maxima ((savgol_filter ys0).map (fun v => -v)),
      peakProminence ((savgol_filter ys0).map (fun v => -v)) q < t) :
    detect_repetitions xs t = Except.ok [(v1, p, v2)] ∧
      detect_repetitions ys0 t = Except.ok [] := by
  constructor
  · simp only [detect_repetitions]
    rw [if_neg (Nat.not_lt.mpr hxlen), hp, hv]
    simp [pairReps, argmaxBySmoothed, h1, h2]
  · simp only [detect_repetitions]
    rw [if_neg (Nat.not_lt.mpr hylen)]
    have hv0 : find_peaks ((savgol_filter ys0).map (fun v => -v)) t = [] := by
      unfold find_peaks
      rw [List.filter_eq_nil]
      intro q hq
      simp only [decide_eq_true_eq]
      exact not_le.mpr (hsub q hq)
    rw [hv0]
    simp [pairReps]

/-- One unfolding of the local-maxima scan, used to evaluate the
detector on the concrete witness series. -/
theorem localMaximaAux_step (x : List ℚ) (iMax fuel i : ℕ) :
    localMaximaAux x iMax (fuel + 1) i =
      if i < iMax then
        if x.getD (i - 1) 0 < x.getD i 0 then
          let iAhead := findAheadAux x iMax (x.getD i 0) x.length (i + 1)
          if x.getD iAhead 0 < x.getD i 0 then
            ((i + (iAhead - 1)) / 2) :: localMaximaAux x iMax fuel (iAhead + 1)
          else localMaximaAux x iMax fuel (i + 1)
        else localMaximaAux x iMax fuel (i + 1)
      else [] := rfl

/-- Witness barbell height series with one clean valley–peak–valley
excursion (descend, full ascent, descend again), 17 samples long. -/
def tentSeries : List ℚ :=
  [8580, 6435, 4290, 2145, 0, 2145, 4290, 6435, 8580,
   6435, 4290, 2145, 0, 2145, 4290, 6435, 8580]

/-- Savitzky–Golay smoothing of `tentSeries`. -/
def tentSmoothed : List ℚ :=
  [7230, 5739, 4588, 3777, 3306, 3175, 4290, 5405, 5760,
   5405, 4290, 3175, 3306, 3777, 4588, 5739, 7230]

/-- Negation of `tentSmoothed`, scanned for valleys. -/
def tentSmoothedNeg : List ℚ :=
  [-7230, -5739, -4588, -3777, -3306, -3175, -4290, -5405, -5760,
   -5405, -4290, -3175, -3306, -3777, -4588, -5739, -7230]

/-- Witness series whose oscillation stays far below the prominence
threshold: a shallow dip of amplitude one twentieth. -/
def subSeries : List ℚ :=
  [1/20, 1/25, 3/100, 1/50, 1/100, 0, 1/100, 1/50, 3/100, 1/25, 1/20]

/-- Savitzky–Golay smoothing of `subSeries`. -/
def subSmoothed : List ℚ :=
  [153/2860, 27/715, 73/2860, 12/715, 3/260, 7/715,
   3/260, 12/715, 73/2860, 27/715, 153/2860]

/-- Negation of `subSmoothed`, scanned for valleys. -/
def subSmoothedNeg : List ℚ :=
  [-153/2860, -27/715, -73/2860, -12/715, -3/260, -7/715,
   -3/260, -12/715, -73/2860, -27/715, -153/2860]

set_option maxHeartbeats 4000000

theorem savgol_tentSeries : savgol_filter tentSeries = tentSmoothed := by
  norm_num [savgol_filter, quadFitEval, powSum, List.enum, List.enumFrom,
    List.range_succ, savgolWindow, savgolHalf, tentSeries, tentSmoothed]

theorem savgol_subSeries : savgol_filter subSeries = subSmoothed := by
  norm_num [savgol_filter, quadFitEval, powSum, List.enum, List.enumFrom,
    List.range_succ, savgolWindow, savgolHalf, subSeries, subSmoothed]

theorem tentSmoothed_neg :
    tentSmoothed.map (fun v => -v) = tentSmoothedNeg := by
  norm_num [tentSmoothed, tentSmoothedNeg]

theorem subSmoothed_neg :
    subSmoothed.map (fun v => -v) = subSmoothedNeg := by
  norm_num [subSmoothed, subSmoothedNeg]

theorem maxima_tentSmoothed : local_maxima tentSmoothed = [8] := by
  show localMaximaAux tentSmoothed (tentSmoothed.length - 1)
    tentSmoothed.length 1 = [8]
  norm_num [tentSmoothed]
  repeat (rw [localMaximaAux_step]; norm_num [tentSmoothed, findAheadAux])

theorem maxima_tentSmoothedNeg : local_maxima tentSmoothedNeg = [5, 11] := by
  show localMaximaAux tentSmoothedNeg (tentSmoothedNeg.length - 1)
    tentSmoothedNeg.length 1 = [5, 11]
  norm_num [tentSmoothedNeg]
  repeat (rw [localMaximaAux_step]; norm_num [tentSmoothedNeg, findAheadAux])

theorem maxima_subSmoothedNeg : local_maxima subSmoothedNeg = [5] := by
  show localMaximaAux subSmoothedNeg (subSmoothedNeg.length - 1)
    subSmoothedNeg.length 1 = [5]
  norm_num [subSmoothedNeg]
  repeat (rw [localMaximaAux_step]; norm_num [subSmoothedNeg, findAheadAux])

theorem prom_tentSmoothed_8 : peakProminence tentSmoothed 8 = 2585 := by
  norm_num [peakProminence, tentSmoothed, List.takeWhile]

theorem prom_tentSmoothedNeg_5 : peakProminence tentSmoothedNeg 5 = 4055 := by
  norm_num [peakProminence, tentSmoothedNeg, List.takeWhile]

theorem prom_tentSmoothedNeg_11 : peakProminence tentSmoothedNeg 11 = 4055 := by
  norm_num [peakProminence, tentSmoothedNeg, List.takeWhile]

theorem prom_subSmoothedNeg_5 : peakProminence subSmoothedNeg 5 = 25/572 := by
  norm_num [peakProminence, subSmoothedNeg, List.takeWhile]

theorem findpeaks_tentSmoothed : find_peaks tentSmoothed (1/10) = [8] := by
  unfold find_peaks
  rw [maxima_tentSmoothed]
  simp only [List.filter_cons, List.filter_nil, prom_tentSmoothed_8]
  norm_num

theorem findpeaks_tentSmoothedNeg :
    find_peaks tentSmoothedNeg (1/10) = [5, 11] := by
  unfold find_peaks
  rw [maxima_tentSmoothedNeg]
  simp only [List.filter_cons, List.filter_nil, prom_tentSmoothedNeg_5,
    prom_tentSmoothedNeg_11]
  norm_num

/-- Witness for claim C4: the clean 17-sample excursion yields exactly
the repetition (5, 8, 11), and the shallow sub-threshold dip yields no
repetition. -/
theorem detect_repetitions_single_and_none_witness :
    detect_repetitions tentSeries (1/10) = Except.ok [(5, 8, 11)] ∧
      detect_repetitions subSeries (1/10) = Except.ok [] :=
  detect_repetitions_single_and_none tentSeries subSeries (1/10) 8 5 11
    (by norm_num [tentSeries, savgolWindow])
    (by rw [savgol_tentSeries]; exact findpeaks_tentSmoothed)
    (by rw [savgol_tentSeries, tentSmoothed_neg]; exact findpeaks_tentSmoothedNeg)
    (by norm_num) (by norm_num)
    (by norm_num [subSeries, savgolWindow])
    (by
      rw [savgol_subSeries, subSmoothed_neg, maxima_subSmoothedNeg]
      intro q hq
      rw [List.mem_singleton] at hq
      subst hq
      rw [prom_subSmoothedNeg_5]
      norm_num)

end Powerlift
